import Mathlib

/-!
Verification of the two Python example clients in the aws-bedrock-openai
repository: the asynchronous client in examples/python_httpx_client.py
(class BedrockOpenAIClient) and the synchronous client in
examples/python_sync_client.py (class BedrockOpenAIClientSync).

Each client holds a base URL and a header dictionary, and exposes two
operations, chat_completion and list_models, each performing a single
HTTP call. We embed the request construction, the response handling
(httpx raise_for_status followed by response.json), and the example
driver main. HTTP transport and JSON decoding are external library
behaviour; they enter as explicit parameters (a transport function from
request to outcome, and a parse function from body string to optional
JSON value).
-/

/-- JSON values, as produced by building the Python payload dictionaries
and decoding response bodies. Temperatures are modelled as rationals
(the clients pass them through verbatim, with no arithmetic). -/
inductive Json where
  | null : Json
  | bool : Bool → Json
  | int : Int → Json
  | num : ℚ → Json
  | str : String → Json
  | arr : List Json → Json
  | obj : List (String × Json) → Json

/-- Whether a JSON value is an object with a field of the given key. -/
def Json.hasField (j : Json) (k : String) : Bool :=
  match j with
  | .obj kvs => kvs.any (fun p => p.1 = k)
  | _ => false

/-- Whether an optional request body has a field of the given key. -/
def bodyField (b : Option Json) (k : String) : Bool :=
  match b with
  | some j => j.hasField k
  | none => false

/-- The value of a field of a JSON object, when present. -/
def Json.getField (j : Json) (k : String) : Option Json :=
  match j with
  | .obj kvs => kvs.lookup k
  | _ => none

/-- The value of a field of an optional request body, when present. -/
def bodyGet (b : Option Json) (k : String) : Option Json :=
  match b with
  | some j => j.getField k
  | none => none

/-- Whether a string ends in a slash character. -/
def hasTrailingSlash (s : String) : Bool :=
  s.data.getLast? == some '/'

/-- An HTTP request as handed to the httpx transport: method, full URL,
header list, optional JSON body, and the timeout passed to the call. -/
structure HttpRequest where
  method : String
  url : String
  headers : List (String × String)
  body : Option Json
  timeout : ℚ

/-- Outcome of one transport exchange: either a response carrying a
status code and a raw body string, or a network-level failure such as a
connection error or an elapsed timeout (httpx TransportError family). -/
inductive TransportOutcome where
  | response : Nat → String → TransportOutcome
  | networkFailure : String → TransportOutcome

/-- The error taxonomy the clients surface to the caller: httpx
HTTPStatusError with status and raw body, httpx TransportError, and
a JSON decode failure from response.json. -/
inductive ClientError where
  | httpStatusError : Nat → String → ClientError
  | transportError : String → ClientError
  | decodeError : ClientError

/-- Test for the slash character. -/
def isSlash (c : Char) : Bool := c = '/'

/-- Python str.rstrip with the slash character: removes every trailing
slash from the string. -/
def rstripSlash (s : String) : String :=
  String.mk ((s.data.reverse.dropWhile isSlash).reverse)

namespace BedrockOpenAIClient

/-- The client state of examples/python_httpx_client.py: the normalized
base URL and the header dictionary built in __init__. -/
structure Client where
  base_url : String
  headers : List (String × String)

/-- BedrockOpenAIClient.__init__: store base_url with trailing slashes
stripped, and the Content-Type and Authorization headers. -/
def Client.init (base_url aws_bearer_token : String) : Client :=
  { base_url := rstripSlash base_url
    headers := [("Content-Type", "application/json"),
                ("Authorization", "Bearer " ++ aws_bearer_token)] }

/-- The payload dictionary built by the asynchronous chat_completion. -/
def chatPayload (messages : List Json) (model : String) (temperature : ℚ)
    (max_tokens : Int) (stream : Bool) : Json :=
  Json.obj [("model", .str model),
            ("messages", .arr messages),
            ("temperature", .num temperature),
            ("max_tokens", .int max_tokens),
            ("stream", .bool stream)]

/-- The POST request issued by the asynchronous chat_completion:
URL {base_url}/v1/chat/completions, the stored headers, the payload as
JSON body, timeout 30.0. -/
def chat_completion_request (c : Client) (messages : List Json)
    (model : String) (temperature : ℚ) (max_tokens : Int) (stream : Bool) :
    HttpRequest :=
  { method := "POST"
    url := c.base_url ++ "/v1/chat/completions"
    headers := c.headers
    body := some (chatPayload messages model temperature max_tokens stream)
    timeout := 30 }

/-- The GET request issued by the asynchronous list_models:
URL {base_url}/v1/models, the stored headers, no body, timeout 10.0. -/
def list_models_request (c : Client) : HttpRequest :=
  { method := "GET"
    url := c.base_url ++ "/v1/models"
    headers := c.headers
    body := none
    timeout := 10 }

/-- Response handling shared by both operations of the asynchronous
client: httpx raise_for_status (raises HTTPStatusError unless the status
is 2xx; a network failure surfaces as TransportError), then
response.json (raises a decode error when the body is not valid JSON). -/
def handleResponse (parse : String → Option Json) :
    TransportOutcome → Except ClientError Json
  | .networkFailure msg => .error (.transportError msg)
  | .response status body =>
      if 200 ≤ status ∧ status ≤ 299 then
        match parse body with
        | some j => .ok j
        | none => .error .decodeError
      else
        .error (.httpStatusError status body)

/-- The asynchronous chat_completion as a whole: the list of requests it
issues (exactly the one POST) paired with its returned value or error. -/
def chat_completion (c : Client) (transport : HttpRequest → TransportOutcome)
    (parse : String → Option Json) (messages : List Json) (model : String)
    (temperature : ℚ) (max_tokens : Int) (stream : Bool) :
    List HttpRequest × Except ClientError Json :=
  let req := chat_completion_request c messages model temperature max_tokens stream
  ([req], handleResponse parse (transport req))

/-- The asynchronous list_models as a whole: the list of requests it
issues (exactly the one GET) paired with its returned value or error. -/
def list_models (c : Client) (transport : HttpRequest → TransportOutcome)
    (parse : String → Option Json) :
    List HttpRequest × Except ClientError Json :=
  let req := list_models_request c
  ([req], handleResponse parse (transport req))

end BedrockOpenAIClient

namespace BedrockOpenAIClientSync

/-- The client state of examples/python_sync_client.py: the normalized
base URL and the header dictionary built in __init__. -/
structure Client where
  base_url : String
  headers : List (String × String)

/-- BedrockOpenAIClientSync.__init__: store base_url with trailing
slashes stripped, and the Content-Type and Authorization headers. -/
def Client.init (base_url api_key : String) : Client :=
  { base_url := rstripSlash base_url
    headers := [("Content-Type", "application/json"),
                ("Authorization", "Bearer " ++ api_key)] }

/-- The payload dictionary built by the synchronous chat_completion.
It has four fields; the synchronous client takes no stream argument and
its payload has no stream key. -/
def chatPayload (messages : List Json) (model : String) (temperature : ℚ)
    (max_tokens : Int) : Json :=
  Json.obj [("model", .str model),
            ("messages", .arr messages),
            ("temperature", .num temperature),
            ("max_tokens", .int max_tokens)]

/-- The POST request issued by the synchronous chat_completion:
URL {base_url}/v1/chat/completions, the stored headers, the payload as
JSON body, timeout 30.0. -/
def chat_completion_request (c : Client) (messages : List Json)
    (model : String) (temperature : ℚ) (max_tokens : Int) : HttpRequest :=
  { method := "POST"
    url := c.base_url ++ "/v1/chat/completions"
    headers := c.headers
    body := some (chatPayload messages model temperature max_tokens)
    timeout := 30 }

/-- The GET request issued by the synchronous list_models:
URL {base_url}/v1/models, the stored headers, no body, timeout 10.0. -/
def list_models_request (c : Client) : HttpRequest :=
  { method := "GET"
    url := c.base_url ++ "/v1/models"
    headers := c.headers
    body := none
    timeout := 10 }

/-- Response handling shared by both operations of the synchronous
client (same code shape as the asynchronous one): raise_for_status,
then response.json. -/
def handleResponse (parse : String → Option Json) :
    TransportOutcome → Except ClientError Json
  | .networkFailure msg => .error (.transportError msg)
  | .response status body =>
      if 200 ≤ status ∧ status ≤ 299 then
        match parse body with
        | some j => .ok j
        | none => .error .decodeError
      else
        .error (.httpStatusError status body)

/-- The synchronous chat_completion as a whole: the list of requests it
issues (exactly the one POST) paired with its returned value or error. -/
def chat_completion (c : Client) (transport : HttpRequest → TransportOutcome)
    (parse : String → Option Json) (messages : List Json) (model : String)
    (temperature : ℚ) (max_tokens : Int) :
    List HttpRequest × Except ClientError Json :=
  let req := chat_completion_request c messages model temperature max_tokens
  ([req], handleResponse parse (transport req))

/-- The synchronous list_models as a whole: the list of requests it
issues (exactly the one GET) paired with its returned value or error. -/
def list_models (c : Client) (transport : HttpRequest → TransportOutcome)
    (parse : String → Option Json) :
    List HttpRequest × Except ClientError Json :=
  let req := list_models_request c
  ([req], handleResponse parse (transport req))

end BedrockOpenAIClientSync

/-- A call a caller can make on the asynchronous client instance:
chat_completion with its five arguments, or list_models. -/
inductive AsyncCall where
  | chat : List Json → String → ℚ → Int → Bool → AsyncCall
  | listModels : AsyncCall

/-- One method call on the asynchronous client: the methods read
self.base_url and self.headers and assign to neither, so the resulting
client state is the incoming one; the second component is the request
the call issues. -/
def BedrockOpenAIClient.step (c : BedrockOpenAIClient.Client) :
    AsyncCall → BedrockOpenAIClient.Client × HttpRequest
  | .chat m mo t mt s => (c, BedrockOpenAIClient.chat_completion_request c m mo t mt s)
  | .listModels => (c, BedrockOpenAIClient.list_models_request c)

/-- Run a sequence of method calls on the asynchronous client, threading
the client state through. -/
def BedrockOpenAIClient.runCalls (c : BedrockOpenAIClient.Client) :
    List AsyncCall → BedrockOpenAIClient.Client
  | [] => c
  | call :: rest => BedrockOpenAIClient.runCalls (BedrockOpenAIClient.step c call).1 rest

/-- A call a caller can make on the synchronous client instance:
chat_completion with its four arguments, or list_models. -/
inductive SyncCall where
  | chat : List Json → String → ℚ → Int → SyncCall
  | listModels : SyncCall

/-- One method call on the synchronous client: the methods read
self.base_url and self.headers and assign to neither, so the resulting
client state is the incoming one; the second component is the request
the call issues. -/
def BedrockOpenAIClientSync.step (c : BedrockOpenAIClientSync.Client) :
    SyncCall → BedrockOpenAIClientSync.Client × HttpRequest
  | .chat m mo t mt => (c, BedrockOpenAIClientSync.chat_completion_request c m mo t mt)
  | .listModels => (c, BedrockOpenAIClientSync.list_models_request c)

/-- Run a sequence of method calls on the synchronous client, threading
the client state through. -/
def BedrockOpenAIClientSync.runCalls (c : BedrockOpenAIClientSync.Client) :
    List SyncCall → BedrockOpenAIClientSync.Client
  | [] => c
  | call :: rest => BedrockOpenAIClientSync.runCalls (BedrockOpenAIClientSync.step c call).1 rest

/-- The built-in placeholder token both drivers compare against. -/
def placeholderToken : String :=
  "bedrock-api-key-YmVkcm9jay5hbWF6b25hd3MuY29tLz9BY3Rpb249Q2FsbFdpdGhCZWFyZXJUb2tlbiZYLUFte......"

/-- os.getenv with a default: look the key up in the environment,
falling back to the default when the variable is absent. -/
def getenvD (env : List (String × String)) (k d : String) : String :=
  match env.lookup k with
  | some v => v
  | none => d

/-- What a driver run produces: whether the configuration warning was
printed (followed by an early return), the client it constructed if
any, and the HTTP requests issued on its behalf. The drivers catch
every exception, so a run never raises. -/
structure MainResult (C : Type) where
  warned : Bool
  client : Option C
  requests : List HttpRequest

/-- The driver main of examples/python_httpx_client.py: read the base
URL and token from the environment with their built-in defaults; when
the token equals the placeholder, print the warning and return before
constructing a client; otherwise construct the client and run the
example calls (abstracted as the run parameter, since the requests they
issue depend on remote responses). -/
def mainAsync (env : List (String × String))
    (run : BedrockOpenAIClient.Client → List HttpRequest) :
    MainResult BedrockOpenAIClient.Client :=
  let BASE_URL := getenvD env "BEDROCK_OPENAI_BASE_URL" "https://openai.ez2.click/"
  let AWS_BEARER_TOKEN := getenvD env "AWS_BEARER_TOKEN_BEDROCK" placeholderToken
  if AWS_BEARER_TOKEN = placeholderToken then
    { warned := true, client := none, requests := [] }
  else
    let client := BedrockOpenAIClient.Client.init BASE_URL AWS_BEARER_TOKEN
    { warned := false, client := some client, requests := run client }

/-- The driver main of examples/python_sync_client.py: same shape as
the asynchronous driver, with its own default base URL. -/
def mainSync (env : List (String × String))
    (run : BedrockOpenAIClientSync.Client → List HttpRequest) :
    MainResult BedrockOpenAIClientSync.Client :=
  let BASE_URL := getenvD env "BEDROCK_OPENAI_BASE_URL" "https://openai.ez2.click/dev"
  let AWS_BEARER_TOKEN := getenvD env "AWS_BEARER_TOKEN_BEDROCK" placeholderToken
  if AWS_BEARER_TOKEN = placeholderToken then
    { warned := true, client := none, requests := [] }
  else
    let client := BedrockOpenAIClientSync.Client.init BASE_URL AWS_BEARER_TOKEN
    { warned := false, client := some client, requests := run client }

/-- The head of what dropWhile leaves does not satisfy the predicate. -/
theorem head?_dropWhile_eq_false (p : Char → Bool) (l : List Char) :
    ∀ c, (l.dropWhile p).head? = some c → p c = false := by
  induction l with
  | nil => intro c h; simp [List.dropWhile] at h
  | cons a l ih =>
    intro c h
    cases hpa : p a with
    | true =>
      rw [List.dropWhile_cons_of_pos hpa] at h
      exact ih c h
    | false =>
      rw [List.dropWhile_cons_of_neg (by simp [hpa])] at h
      simp at h
      exact h ▸ hpa

/-- rstripSlash never leaves a trailing slash. -/
theorem hasTrailingSlash_rstripSlash (s : String) :
    hasTrailingSlash (rstripSlash s) = false := by
  show ((s.data.reverse.dropWhile isSlash).reverse.getLast? == some '/') = false
  rw [List.getLast?_reverse]
  cases hh : (s.data.reverse.dropWhile isSlash).head? with
  | none => simp
  | some c =>
    have hc := head?_dropWhile_eq_false isSlash s.data.reverse c hh
    simp [isSlash] at hc
    simp [hc]

/-- The input string is the stripped string followed by a run of
slashes. -/
theorem rstripSlash_spec (s : String) :
    ∃ k, s.data = (rstripSlash s).data ++ List.replicate k '/' := by
  refine ⟨(s.data.reverse.takeWhile isSlash).length, ?_⟩
  have htake : s.data.reverse.takeWhile isSlash =
      List.replicate (s.data.reverse.takeWhile isSlash).length '/' := by
    rw [List.eq_replicate_iff]
    exact ⟨rfl, fun b hb => by simpa [isSlash] using List.mem_takeWhile_imp hb⟩
  calc s.data = s.data.reverse.reverse := (List.reverse_reverse _).symm
    _ = (s.data.reverse.takeWhile isSlash ++ s.data.reverse.dropWhile isSlash).reverse := by
        rw [List.takeWhile_append_dropWhile]
    _ = (s.data.reverse.dropWhile isSlash).reverse ++
        (s.data.reverse.takeWhile isSlash).reverse := List.reverse_append _ _
    _ = (rstripSlash s).data ++ (s.data.reverse.takeWhile isSlash).reverse := rfl
    _ = (rstripSlash s).data ++ List.replicate (s.data.reverse.takeWhile isSlash).length '/' := by
        conv_lhs => rw [htake]
        rw [List.reverse_replicate]

/-- C3: for every base_url string passed to the constructor of either
client, the stored base URL has no trailing slash; in particular
"https://example.com/" is stored as "https://example.com" and the
list_models URL is "https://example.com/v1/models" with no double
slash. -/
theorem claim_C3_base_url_normalized (s tok : String) :
    hasTrailingSlash (BedrockOpenAIClient.Client.init s tok).base_url = false ∧
    hasTrailingSlash (BedrockOpenAIClientSync.Client.init s tok).base_url = false ∧
    (BedrockOpenAIClient.Client.init "https://example.com/" tok).base_url =
      "https://example.com" ∧
    (BedrockOpenAIClientSync.Client.init "https://example.com/" tok).base_url =
      "https://example.com" ∧
    (BedrockOpenAIClient.list_models_request
      (BedrockOpenAIClient.Client.init "https://example.com/" tok)).url =
      "https://example.com/v1/models" ∧
    (BedrockOpenAIClientSync.list_models_request
      (BedrockOpenAIClientSync.Client.init "https://example.com/" tok)).url =
      "https://example.com/v1/models" :=
  ⟨hasTrailingSlash_rstripSlash s, hasTrailingSlash_rstripSlash s,
   rfl, rfl, rfl, rfl⟩

/-- C10: base URL normalization strips every trailing slash: the stored
base URL of either client is the input with all trailing slash
characters removed; "https://example.com//" is stored as
"https://example.com", a string of only slashes is stored as the empty
string, and the list_models URL is then "/v1/models". -/
theorem claim_C10_strip_all_trailing_slashes (s tok : String) :
    (BedrockOpenAIClient.Client.init s tok).base_url = rstripSlash s ∧
    (BedrockOpenAIClientSync.Client.init s tok).base_url = rstripSlash s ∧
    (∃ k, s.data = (rstripSlash s).data ++ List.replicate k '/') ∧
    hasTrailingSlash (rstripSlash s) = false ∧
    rstripSlash "https://example.com//" = "https://example.com" ∧
    rstripSlash "///" = "" ∧
    (BedrockOpenAIClient.list_models_request
      (BedrockOpenAIClient.Client.init "///" tok)).url = "/v1/models" :=
  ⟨rfl, rfl, rstripSlash_spec s, hasTrailingSlash_rstripSlash s,
   rfl, rfl, rfl⟩

/-- C1 counterexample: the synchronous chat_completion, called on a
concrete client with a concrete non-empty messages list, issues a POST
whose JSON body has no stream field, so the body does not contain all
five fields. -/
theorem claim_C1_counterexample :
    ((BedrockOpenAIClientSync.chat_completion
        (BedrockOpenAIClientSync.Client.init "https://openai.ez2.click" "token")
        (fun _ => TransportOutcome.response 200 "{}")
        (fun _ => some (Json.obj []))
        [Json.obj [("role", Json.str "user"), ("content", Json.str "hi")]]
        "gpt-3.5-turbo" (7/10) 1000).1.all
      (fun r => bodyField r.body "stream")) = false := rfl

/-- C1 (amended): for every non-empty messages sequence and every choice
of the other arguments, the asynchronous chat_completion issues exactly
one POST whose JSON body contains all five fields model, messages,
temperature, max_tokens and stream; the synchronous chat_completion
takes no stream argument and issues exactly one POST whose JSON body
contains model, messages, temperature and max_tokens but no stream
field. -/
theorem claim_C1_amended
    (ca : BedrockOpenAIClient.Client) (cs : BedrockOpenAIClientSync.Client)
    (ta ts : HttpRequest → TransportOutcome) (pa ps : String → Option Json)
    (messages : List Json) (model : String) (temperature : ℚ)
    (max_tokens : Int) (stream : Bool) (_hm : messages ≠ []) :
    ∃ ra rs,
      (BedrockOpenAIClient.chat_completion ca ta pa messages model temperature
        max_tokens stream).1 = [ra] ∧
      ra.method = "POST" ∧
      bodyField ra.body "model" = true ∧
      bodyField ra.body "messages" = true ∧
      bodyField ra.body "temperature" = true ∧
      bodyField ra.body "max_tokens" = true ∧
      bodyField ra.body "stream" = true ∧
      (BedrockOpenAIClientSync.chat_completion cs ts ps messages model temperature
        max_tokens).1 = [rs] ∧
      rs.method = "POST" ∧
      bodyField rs.body "model" = true ∧
      bodyField rs.body "messages" = true ∧
      bodyField rs.body "temperature" = true ∧
      bodyField rs.body "max_tokens" = true ∧
      bodyField rs.body "stream" = false :=
  ⟨_, _, rfl, rfl, rfl, rfl, rfl, rfl, rfl, rfl, rfl, rfl, rfl, rfl, rfl, rfl⟩

/-- C1 witness: the amended C1 applied at a concrete non-empty messages
list and concrete arguments. -/
theorem claim_C1_witness :
    ∃ ra rs,
      (BedrockOpenAIClient.chat_completion
        (BedrockOpenAIClient.Client.init "https://openai.ez2.click" "token")
        (fun _ => TransportOutcome.response 200 "{}")
        (fun _ => some (Json.obj []))
        [Json.obj [("role", Json.str "user"), ("content", Json.str "hi")]]
        "gpt-3.5-turbo" (7/10) 1000 false).1 = [ra] ∧
      ra.method = "POST" ∧
      bodyField ra.body "model" = true ∧
      bodyField ra.body "messages" = true ∧
      bodyField ra.body "temperature" = true ∧
      bodyField ra.body "max_tokens" = true ∧
      bodyField ra.body "stream" = true ∧
      (BedrockOpenAIClientSync.chat_completion
        (BedrockOpenAIClientSync.Client.init "https://openai.ez2.click" "token")
        (fun _ => TransportOutcome.response 200 "{}")
        (fun _ => some (Json.obj []))
        [Json.obj [("role", Json.str "user"), ("content", Json.str "hi")]]
        "gpt-3.5-turbo" (7/10) 1000).1 = [rs] ∧
      rs.method = "POST" ∧
      bodyField rs.body "model" = true ∧
      bodyField rs.body "messages" = true ∧
      bodyField rs.body "temperature" = true ∧
      bodyField rs.body "max_tokens" = true ∧
      bodyField rs.body "stream" = false :=
  claim_C1_amended
    (BedrockOpenAIClient.Client.init "https://openai.ez2.click" "token")
    (BedrockOpenAIClientSync.Client.init "https://openai.ez2.click" "token")
    (fun _ => TransportOutcome.response 200 "{}")
    (fun _ => TransportOutcome.response 200 "{}")
    (fun _ => some (Json.obj []))
    (fun _ => some (Json.obj []))
    [Json.obj [("role", Json.str "user"), ("content", Json.str "hi")]]
    "gpt-3.5-turbo" (7/10) 1000 false
    (List.cons_ne_nil _ _)

/-- C2 counterexample: at a concrete input (messages, model,
temperature, max_tokens) the asynchronous and the synchronous
chat_completion do not build the same JSON payload: the asynchronous
body carries a stream field and the synchronous body does not. -/
theorem claim_C2_counterexample :
    (BedrockOpenAIClient.chat_completion_request
        (BedrockOpenAIClient.Client.init "https://openai.ez2.click" "token")
        [Json.obj [("role", Json.str "user"), ("content", Json.str "hi")]]
        "gpt-3.5-turbo" (7/10) 1000 false).body ≠
    (BedrockOpenAIClientSync.chat_completion_request
        (BedrockOpenAIClientSync.Client.init "https://openai.ez2.click" "token")
        [Json.obj [("role", Json.str "user"), ("content", Json.str "hi")]]
        "gpt-3.5-turbo" (7/10) 1000).body := by
  intro h
  exact absurd (congrArg (fun b => bodyField b "stream") h) (by decide)

/-- C2 (amended): for every input (messages, model, temperature,
max_tokens), the synchronous and the asynchronous chat_completion (the
latter at its default stream value false) build requests with the same
method, URL, headers and timeout; the payloads agree on the four fields
model, messages, temperature and max_tokens, and differ only in that
the asynchronous payload additionally carries stream: false while the
synchronous payload has no stream field; and the two clients map every
transport outcome to the same result or error. -/
theorem claim_C2_amended (burl tok : String) (m : List Json) (mo : String)
    (t : ℚ) (mt : Int) (parse : String → Option Json) (o : TransportOutcome) :
    (BedrockOpenAIClient.chat_completion_request
        (BedrockOpenAIClient.Client.init burl tok) m mo t mt false).method =
      (BedrockOpenAIClientSync.chat_completion_request
        (BedrockOpenAIClientSync.Client.init burl tok) m mo t mt).method ∧
    (BedrockOpenAIClient.chat_completion_request
        (BedrockOpenAIClient.Client.init burl tok) m mo t mt false).url =
      (BedrockOpenAIClientSync.chat_completion_request
        (BedrockOpenAIClientSync.Client.init burl tok) m mo t mt).url ∧
    (BedrockOpenAIClient.chat_completion_request
        (BedrockOpenAIClient.Client.init burl tok) m mo t mt false).headers =
      (BedrockOpenAIClientSync.chat_completion_request
        (BedrockOpenAIClientSync.Client.init burl tok) m mo t mt).headers ∧
    (BedrockOpenAIClient.chat_completion_request
        (BedrockOpenAIClient.Client.init burl tok) m mo t mt false).timeout =
      (BedrockOpenAIClientSync.chat_completion_request
        (BedrockOpenAIClientSync.Client.init burl tok) m mo t mt).timeout ∧
    bodyGet (BedrockOpenAIClient.chat_completion_request
        (BedrockOpenAIClient.Client.init burl tok) m mo t mt false).body "model" =
      bodyGet (BedrockOpenAIClientSync.chat_completion_request
        (BedrockOpenAIClientSync.Client.init burl tok) m mo t mt).body "model" ∧
    bodyGet (BedrockOpenAIClient.chat_completion_request
        (BedrockOpenAIClient.Client.init burl tok) m mo t mt false).body "messages" =
      bodyGet (BedrockOpenAIClientSync.chat_completion_request
        (BedrockOpenAIClientSync.Client.init burl tok) m mo t mt).body "messages" ∧
    bodyGet (BedrockOpenAIClient.chat_completion_request
        (BedrockOpenAIClient.Client.init burl tok) m mo t mt false).body "temperature" =
      bodyGet (BedrockOpenAIClientSync.chat_completion_request
        (BedrockOpenAIClientSync.Client.init burl tok) m mo t mt).body "temperature" ∧
    bodyGet (BedrockOpenAIClient.chat_completion_request
        (BedrockOpenAIClient.Client.init burl tok) m mo t mt false).body "max_tokens" =
      bodyGet (BedrockOpenAIClientSync.chat_completion_request
        (BedrockOpenAIClientSync.Client.init burl tok) m mo t mt).body "max_tokens" ∧
    bodyGet (BedrockOpenAIClient.chat_completion_request
        (BedrockOpenAIClient.Client.init burl tok) m mo t mt false).body "stream" =
      some (Json.bool false) ∧
    bodyField (BedrockOpenAIClientSync.chat_completion_request
        (BedrockOpenAIClientSync.Client.init burl tok) m mo t mt).body "stream" = false ∧
    BedrockOpenAIClient.handleResponse parse o =
      BedrockOpenAIClientSync.handleResponse parse o := by
  refine ⟨rfl, rfl, rfl, rfl, rfl, rfl, rfl, rfl, rfl, rfl, ?_⟩
  cases o <;> rfl

/-- C4: for every transport response with a non-2xx status, the
chat_completion of either client fails with an HttpStatusError carrying
that status code and the raw response body (returning no value), and
for every network or timeout failure it fails with a TransportError. -/
theorem claim_C4_error_mapping
    (ca : BedrockOpenAIClient.Client) (cs : BedrockOpenAIClientSync.Client)
    (t1 t2 : HttpRequest → TransportOutcome) (parse : String → Option Json)
    (m : List Json) (mo : String) (temp : ℚ) (mt : Int) (s : Bool)
    (status : Nat) (body msg : String)
    (h1 : t1 (BedrockOpenAIClient.chat_completion_request ca m mo temp mt s) =
      TransportOutcome.response status body)
    (h2 : t1 (BedrockOpenAIClientSync.chat_completion_request cs m mo temp mt) =
      TransportOutcome.response status body)
    (h3 : status < 200 ∨ 300 ≤ status)
    (h4 : t2 (BedrockOpenAIClient.chat_completion_request ca m mo temp mt s) =
      TransportOutcome.networkFailure msg)
    (h5 : t2 (BedrockOpenAIClientSync.chat_completion_request cs m mo temp mt) =
      TransportOutcome.networkFailure msg) :
    (BedrockOpenAIClient.chat_completion ca t1 parse m mo temp mt s).2 =
      Except.error (ClientError.httpStatusError status body) ∧
    (BedrockOpenAIClientSync.chat_completion cs t1 parse m mo temp mt).2 =
      Except.error (ClientError.httpStatusError status body) ∧
    (BedrockOpenAIClient.chat_completion ca t2 parse m mo temp mt s).2 =
      Except.error (ClientError.transportError msg) ∧
    (BedrockOpenAIClientSync.chat_completion cs t2 parse m mo temp mt).2 =
      Except.error (ClientError.transportError msg) := by
  refine ⟨?_, ?_, ?_, ?_⟩
  · show BedrockOpenAIClient.handleResponse parse (t1 _) = _
    rw [h1]
    simp only [BedrockOpenAIClient.handleResponse]
    rw [if_neg (by omega)]
  · show BedrockOpenAIClientSync.handleResponse parse (t1 _) = _
    rw [h2]
    simp only [BedrockOpenAIClientSync.handleResponse]
    rw [if_neg (by omega)]
  · show BedrockOpenAIClient.handleResponse parse (t2 _) = _
    rw [h4]
    rfl
  · show BedrockOpenAIClientSync.handleResponse parse (t2 _) = _
    rw [h5]
    rfl

/-- C4 witness: C4 applied at a concrete client, a transport answering
status 401 with body Unauthorized, and a transport failing with a
timeout message. -/
theorem claim_C4_witness :
    (BedrockOpenAIClient.chat_completion
        (BedrockOpenAIClient.Client.init "https://example.com" "tk")
        (fun _ => TransportOutcome.response 401 "Unauthorized")
        (fun _ => none) [] "gpt-4" 0 100 false).2 =
      Except.error (ClientError.httpStatusError 401 "Unauthorized") ∧
    (BedrockOpenAIClientSync.chat_completion
        (BedrockOpenAIClientSync.Client.init "https://example.com" "tk")
        (fun _ => TransportOutcome.response 401 "Unauthorized")
        (fun _ => none) [] "gpt-4" 0 100).2 =
      Except.error (ClientError.httpStatusError 401 "Unauthorized") ∧
    (BedrockOpenAIClient.chat_completion
        (BedrockOpenAIClient.Client.init "https://example.com" "tk")
        (fun _ => TransportOutcome.networkFailure "timed out")
        (fun _ => none) [] "gpt-4" 0 100 false).2 =
      Except.error (ClientError.transportError "timed out") ∧
    (BedrockOpenAIClientSync.chat_completion
        (BedrockOpenAIClientSync.Client.init "https://example.com" "tk")
        (fun _ => TransportOutcome.networkFailure "timed out")
        (fun _ => none) [] "gpt-4" 0 100).2 =
      Except.error (ClientError.transportError "timed out") :=
  claim_C4_error_mapping
    (BedrockOpenAIClient.Client.init "https://example.com" "tk")
    (BedrockOpenAIClientSync.Client.init "https://example.com" "tk")
    (fun _ => TransportOutcome.response 401 "Unauthorized")
    (fun _ => TransportOutcome.networkFailure "timed out")
    (fun _ => none) [] "gpt-4" 0 100 false 401 "Unauthorized" "timed out"
    rfl rfl (by omega) rfl rfl

/-- C5: for every transport response with a 2xx status, the
chat_completion of either client returns the response body parsed as
JSON; when the body is not valid JSON it fails with a DecodeError and
returns no value. -/
theorem claim_C5_success_and_decode
    (ca : BedrockOpenAIClient.Client) (cs : BedrockOpenAIClientSync.Client)
    (tr : HttpRequest → TransportOutcome) (p1 p2 : String → Option Json)
    (m : List Json) (mo : String) (temp : ℚ) (mt : Int) (s : Bool)
    (status : Nat) (body : String) (j : Json)
    (h1 : tr (BedrockOpenAIClient.chat_completion_request ca m mo temp mt s) =
      TransportOutcome.response status body)
    (h2 : tr (BedrockOpenAIClientSync.chat_completion_request cs m mo temp mt) =
      TransportOutcome.response status body)
    (h3 : 200 ≤ status) (h4 : status ≤ 299)
    (h5 : p1 body = some j) (h6 : p2 body = none) :
    (BedrockOpenAIClient.chat_completion ca tr p1 m mo temp mt s).2 = Except.ok j ∧
    (BedrockOpenAIClientSync.chat_completion cs tr p1 m mo temp mt).2 = Except.ok j ∧
    (BedrockOpenAIClient.chat_completion ca tr p2 m mo temp mt s).2 =
      Except.error ClientError.decodeError ∧
    (BedrockOpenAIClientSync.chat_completion cs tr p2 m mo temp mt).2 =
      Except.error ClientError.decodeError := by
  refine ⟨?_, ?_, ?_, ?_⟩
  · show BedrockOpenAIClient.handleResponse p1 (tr _) = _
    rw [h1]
    simp only [BedrockOpenAIClient.handleResponse]
    rw [if_pos ⟨h3, h4⟩, h5]
  · show BedrockOpenAIClientSync.handleResponse p1 (tr _) = _
    rw [h2]
    simp only [BedrockOpenAIClientSync.handleResponse]
    rw [if_pos ⟨h3, h4⟩, h5]
  · show BedrockOpenAIClient.handleResponse p2 (tr _) = _
    rw [h1]
    simp only [BedrockOpenAIClient.handleResponse]
    rw [if_pos ⟨h3, h4⟩, h6]
  · show BedrockOpenAIClientSync.handleResponse p2 (tr _) = _
    rw [h2]
    simp only [BedrockOpenAIClientSync.handleResponse]
    rw [if_pos ⟨h3, h4⟩, h6]

/-- C5 witness: C5 applied at a concrete client, a transport answering
status 200, a parse accepting the body, and a parse rejecting it. -/
theorem claim_C5_witness :
    (BedrockOpenAIClient.chat_completion
        (BedrockOpenAIClient.Client.init "https://example.com" "tk")
        (fun _ => TransportOutcome.response 200 "null")
        (fun _ => some Json.null) [] "gpt-4" 0 100 false).2 = Except.ok Json.null ∧
    (BedrockOpenAIClientSync.chat_completion
        (BedrockOpenAIClientSync.Client.init "https://example.com" "tk")
        (fun _ => TransportOutcome.response 200 "null")
        (fun _ => some Json.null) [] "gpt-4" 0 100).2 = Except.ok Json.null ∧
    (BedrockOpenAIClient.chat_completion
        (BedrockOpenAIClient.Client.init "https://example.com" "tk")
        (fun _ => TransportOutcome.response 200 "null")
        (fun _ => none) [] "gpt-4" 0 100 false).2 =
      Except.error ClientError.decodeError ∧
    (BedrockOpenAIClientSync.chat_completion
        (BedrockOpenAIClientSync.Client.init "https://example.com" "tk")
        (fun _ => TransportOutcome.response 200 "null")
        (fun _ => none) [] "gpt-4" 0 100).2 =
      Except.error ClientError.decodeError :=
  claim_C5_success_and_decode
    (BedrockOpenAIClient.Client.init "https://example.com" "tk")
    (BedrockOpenAIClientSync.Client.init "https://example.com" "tk")
    (fun _ => TransportOutcome.response 200 "null")
    (fun _ => some Json.null) (fun _ => none)
    [] "gpt-4" 0 100 false 200 "null" Json.null
    rfl rfl (by omega) (by omega) rfl rfl

/-- C6: every call to list_models of either client issues exactly one
GET to {base_url}/v1/models with no request body, and its Authorization
header equals the Authorization header the same client instance sends
from chat_completion. -/
theorem claim_C6_list_models
    (ca : BedrockOpenAIClient.Client) (cs : BedrockOpenAIClientSync.Client)
    (ta ts : HttpRequest → TransportOutcome) (pa ps : String → Option Json)
    (m : List Json) (mo : String) (t : ℚ) (mt : Int) (s : Bool) :
    (BedrockOpenAIClient.list_models ca ta pa).1 =
      [BedrockOpenAIClient.list_models_request ca] ∧
    (BedrockOpenAIClient.list_models_request ca).method = "GET" ∧
    (BedrockOpenAIClient.list_models_request ca).url = ca.base_url ++ "/v1/models" ∧
    (BedrockOpenAIClient.list_models_request ca).body = none ∧
    (BedrockOpenAIClient.list_models_request ca).headers.lookup "Authorization" =
      (BedrockOpenAIClient.chat_completion_request ca m mo t mt s).headers.lookup
        "Authorization" ∧
    (BedrockOpenAIClientSync.list_models cs ts ps).1 =
      [BedrockOpenAIClientSync.list_models_request cs] ∧
    (BedrockOpenAIClientSync.list_models_request cs).method = "GET" ∧
    (BedrockOpenAIClientSync.list_models_request cs).url = cs.base_url ++ "/v1/models" ∧
    (BedrockOpenAIClientSync.list_models_request cs).body = none ∧
    (BedrockOpenAIClientSync.list_models_request cs).headers.lookup "Authorization" =
      (BedrockOpenAIClientSync.chat_completion_request cs m mo t mt).headers.lookup
        "Authorization" :=
  ⟨rfl, rfl, rfl, rfl, rfl, rfl, rfl, rfl, rfl, rfl⟩

/-- C7 counterexample: the timeout of the POST built by chat_completion
is not caller-configurable: no choice of arguments, in either client,
yields a different timeout. -/
theorem claim_C7_counterexample :
    ¬ ((∃ (m m2 : List Json) (mo mo2 : String) (t t2 : ℚ) (mt mt2 : Int)
          (s s2 : Bool),
          (BedrockOpenAIClient.chat_completion_request
            (BedrockOpenAIClient.Client.init "https://example.com" "tk")
            m mo t mt s).timeout ≠
          (BedrockOpenAIClient.chat_completion_request
            (BedrockOpenAIClient.Client.init "https://example.com" "tk")
            m2 mo2 t2 mt2 s2).timeout) ∨
       (∃ (m m2 : List Json) (mo mo2 : String) (t t2 : ℚ) (mt mt2 : Int),
          (BedrockOpenAIClientSync.chat_completion_request
            (BedrockOpenAIClientSync.Client.init "https://example.com" "tk")
            m mo t mt).timeout ≠
          (BedrockOpenAIClientSync.chat_completion_request
            (BedrockOpenAIClientSync.Client.init "https://example.com" "tk")
            m2 mo2 t2 mt2).timeout)) := by
  rintro (⟨m, m2, mo, mo2, t, t2, mt, mt2, s, s2, h⟩ |
          ⟨m, m2, mo, mo2, t, t2, mt, mt2, h⟩) <;> exact h rfl

/-- C7 (amended): the timeout under which chat_completion performs its
HTTPS POST is fixed at 30 time-units (it is not caller-configurable);
the POST goes to {base_url}/v1/chat/completions with headers
Authorization: Bearer <token> and Content-Type: application/json, in
both clients. -/
theorem claim_C7_amended (burl tok : String) (m : List Json) (mo : String)
    (t : ℚ) (mt : Int) (s : Bool) :
    (BedrockOpenAIClient.chat_completion_request
      (BedrockOpenAIClient.Client.init burl tok) m mo t mt s).timeout = 30 ∧
    (BedrockOpenAIClient.chat_completion_request
      (BedrockOpenAIClient.Client.init burl tok) m mo t mt s).url =
      rstripSlash burl ++ "/v1/chat/completions" ∧
    (BedrockOpenAIClient.chat_completion_request
      (BedrockOpenAIClient.Client.init burl tok) m mo t mt s).headers.lookup
      "Authorization" = some ("Bearer " ++ tok) ∧
    (BedrockOpenAIClient.chat_completion_request
      (BedrockOpenAIClient.Client.init burl tok) m mo t mt s).headers.lookup
      "Content-Type" = some "application/json" ∧
    (BedrockOpenAIClientSync.chat_completion_request
      (BedrockOpenAIClientSync.Client.init burl tok) m mo t mt).timeout = 30 ∧
    (BedrockOpenAIClientSync.chat_completion_request
      (BedrockOpenAIClientSync.Client.init burl tok) m mo t mt).url =
      rstripSlash burl ++ "/v1/chat/completions" ∧
    (BedrockOpenAIClientSync.chat_completion_request
      (BedrockOpenAIClientSync.Client.init burl tok) m mo t mt).headers.lookup
      "Authorization" = some ("Bearer " ++ tok) ∧
    (BedrockOpenAIClientSync.chat_completion_request
      (BedrockOpenAIClientSync.Client.init burl tok) m mo t mt).headers.lookup
      "Content-Type" = some "application/json" :=
  ⟨rfl, rfl, rfl, rfl, rfl, rfl, rfl, rfl⟩

/-- A sequence of method calls leaves the asynchronous client state
unchanged. -/
theorem BedrockOpenAIClient.runCallsAsync_id (c : BedrockOpenAIClient.Client) :
    ∀ calls, BedrockOpenAIClient.runCalls c calls = c := by
  intro calls
  induction calls with
  | nil => rfl
  | cons call rest ih =>
    cases call <;>
      simpa [BedrockOpenAIClient.runCalls, BedrockOpenAIClient.step] using ih

/-- A sequence of method calls leaves the synchronous client state
unchanged. -/
theorem BedrockOpenAIClientSync.runCallsSync_id (c : BedrockOpenAIClientSync.Client) :
    ∀ calls, BedrockOpenAIClientSync.runCalls c calls = c := by
  intro calls
  induction calls with
  | nil => rfl
  | cons call rest ih =>
    cases call <;>
      simpa [BedrockOpenAIClientSync.runCalls, BedrockOpenAIClientSync.step] using ih

/-- C8: the client configuration is immutable after construction: after
any sequence of chat_completion and list_models calls on either client,
the client state, and in particular its base_url and headers, equal
their values right after the constructor ran. -/
theorem claim_C8_config_immutable (burl tok : String)
    (callsA : List AsyncCall) (callsS : List SyncCall) :
    BedrockOpenAIClient.runCalls (BedrockOpenAIClient.Client.init burl tok) callsA =
      BedrockOpenAIClient.Client.init burl tok ∧
    (BedrockOpenAIClient.runCalls (BedrockOpenAIClient.Client.init burl tok)
      callsA).base_url = (BedrockOpenAIClient.Client.init burl tok).base_url ∧
    (BedrockOpenAIClient.runCalls (BedrockOpenAIClient.Client.init burl tok)
      callsA).headers = (BedrockOpenAIClient.Client.init burl tok).headers ∧
    BedrockOpenAIClientSync.runCalls (BedrockOpenAIClientSync.Client.init burl tok)
      callsS = BedrockOpenAIClientSync.Client.init burl tok ∧
    (BedrockOpenAIClientSync.runCalls (BedrockOpenAIClientSync.Client.init burl tok)
      callsS).base_url = (BedrockOpenAIClientSync.Client.init burl tok).base_url ∧
    (BedrockOpenAIClientSync.runCalls (BedrockOpenAIClientSync.Client.init burl tok)
      callsS).headers = (BedrockOpenAIClientSync.Client.init burl tok).headers := by
  have ha := BedrockOpenAIClient.runCallsAsync_id
    (BedrockOpenAIClient.Client.init burl tok) callsA
  have hs := BedrockOpenAIClientSync.runCallsSync_id
    (BedrockOpenAIClientSync.Client.init burl tok) callsS
  exact ⟨ha, by rw [ha], by rw [ha], hs, by rw [hs], by rw [hs]⟩

/-- C9: when the AWS_BEARER_TOKEN_BEDROCK environment variable is
absent, the token equals the built-in placeholder, and either driver
prints the configuration warning and returns without constructing a
client or issuing any HTTP request (and without raising). -/
theorem claim_C9_missing_token_warns (env : List (String × String))
    (runA : BedrockOpenAIClient.Client → List HttpRequest)
    (runS : BedrockOpenAIClientSync.Client → List HttpRequest)
    (h : env.lookup "AWS_BEARER_TOKEN_BEDROCK" = none) :
    mainAsync env runA = { warned := true, client := none, requests := [] } ∧
    mainSync env runS = { warned := true, client := none, requests := [] } := by
  refine ⟨?_, ?_⟩
  · unfold mainAsync getenvD
    rw [h]
    simp
  · unfold mainSync getenvD
    rw [h]
    simp

/-- C9 witness: C9 applied at the empty environment. -/
theorem claim_C9_witness :
    mainAsync [] (fun _ => []) = { warned := true, client := none, requests := [] } ∧
    mainSync [] (fun _ => []) = { warned := true, client := none, requests := [] } :=
  claim_C9_missing_token_warns [] (fun _ => []) (fun _ => []) rfl
